import Mathlib

/-!
Verification of the AI_Infra reverse-proxy gateway specification.

The gateway core (request routing, redirect policy, resolver, health
endpoint) is described by `spec.md`; its concrete configuration values
(route prefixes, redirect rules, upstream names, health path) are the
ones asserted by the repository's test suite. The pgAdmin OAuth2 role
mapping is embedded directly from `docker/pgadmin/config_local.py`.
-/

namespace AIInfra

/-! ## Gateway data model

Modelled from the spec: the `nginx.conf` that implements the gateway is
not present in the sources; the data model below follows spec.md section 3
(RouteEntry, RedirectRule, InFlightRequest) with the concrete configured
values taken from the unit and e2e tests. -/

/-- Protocol capabilities of a route (spec.md section 3, RouteEntry). -/
structure ProtocolCapabilities where
  http : Bool
  websocket : Bool
  deriving DecidableEq

/-- Per-route timeout profile (spec.md section 3, RouteEntry). -/
structure Timeouts where
  connect : Nat
  send : Nat
  read : Nat
  deriving DecidableEq

/-- Per-route buffering profile (spec.md section 3, RouteEntry). -/
structure BufferProfile where
  bufferSize : Nat
  bufferCount : Nat
  deriving DecidableEq

/-- Modelled from the spec: a RouteEntry of the Route Table
(spec.md section 3). `prefixPath` is the RouteEntry's path prefix. -/
structure RouteEntry where
  prefixPath : String
  upstreamName : String
  stripsPathOnForward : Bool
  rewriteTo : Option String
  protocolCapabilities : ProtocolCapabilities
  timeouts : Timeouts
  bufferProfile : BufferProfile
  deriving DecidableEq

/-- Modelled from the spec: a RedirectRule mapping a legacy exact path to a
canonical subpath (spec.md section 3). -/
structure RedirectRule where
  fromPathExact : String
  toCanonicalPath : String
  deriving DecidableEq

/-- Modelled from the spec: the static gateway configuration (spec.md
section 6): health path, redirect rules, route table. -/
structure GatewayConfig where
  healthPath : String
  redirects : List RedirectRule
  routes : List RouteEntry
  deriving DecidableEq

/-- Modelled from the spec: per-request state (spec.md section 3,
InFlightRequest), with the request attributes the Router's forwarding
headers depend on. -/
structure InFlightRequest where
  method : String
  path : String
  headers : List (String × String)
  upgradeRequested : Bool
  clientAddr : String
  scheme : String
  host : String
  deriving DecidableEq

/-- Default timeout profile used by the configured routes. -/
def defaultTimeouts : Timeouts := { connect := 60, send := 60, read := 60 }

/-- Default buffer profile used by the configured routes. -/
def defaultBuffers : BufferProfile := { bufferSize := 8192, bufferCount := 8 }

/-- The Grafana route, mounted under `/monitoring/grafana/` with the
prefix stripped before forwarding and WebSocket support (live streaming). -/
def grafanaRoute : RouteEntry :=
  { prefixPath := "/monitoring/grafana/", upstreamName := "grafana"
  , stripsPathOnForward := true, rewriteTo := none
  , protocolCapabilities := { http := true, websocket := true }
  , timeouts := defaultTimeouts, bufferProfile := defaultBuffers }

/-- The Prometheus route, mounted under `/monitoring/prometheus/`. -/
def prometheusRoute : RouteEntry :=
  { prefixPath := "/monitoring/prometheus/", upstreamName := "prometheus"
  , stripsPathOnForward := true, rewriteTo := none
  , protocolCapabilities := { http := true, websocket := false }
  , timeouts := defaultTimeouts, bufferProfile := defaultBuffers }

/-- The Tempo route, mounted under `/monitoring/tempo/`. -/
def tempoRoute : RouteEntry :=
  { prefixPath := "/monitoring/tempo/", upstreamName := "tempo"
  , stripsPathOnForward := true, rewriteTo := none
  , protocolCapabilities := { http := true, websocket := false }
  , timeouts := defaultTimeouts, bufferProfile := defaultBuffers }

/-- The Loki route, mounted under `/monitoring/loki/`. -/
def lokiRoute : RouteEntry :=
  { prefixPath := "/monitoring/loki/", upstreamName := "loki"
  , stripsPathOnForward := true, rewriteTo := none
  , protocolCapabilities := { http := true, websocket := false }
  , timeouts := defaultTimeouts, bufferProfile := defaultBuffers }

/-- The Keycloak route, mounted under `/auth/` (Keycloak serves the full
path itself), with upgrade support. -/
def keycloakRoute : RouteEntry :=
  { prefixPath := "/auth/", upstreamName := "keycloak"
  , stripsPathOnForward := false, rewriteTo := none
  , protocolCapabilities := { http := true, websocket := true }
  , timeouts := defaultTimeouts, bufferProfile := defaultBuffers }

/-- The pgAdmin route, mounted under `/pgadmin/`. -/
def pgadminRoute : RouteEntry :=
  { prefixPath := "/pgadmin/", upstreamName := "pgadmin"
  , stripsPathOnForward := true, rewriteTo := none
  , protocolCapabilities := { http := true, websocket := false }
  , timeouts := defaultTimeouts, bufferProfile := defaultBuffers }

/-- The frontend (root) route. -/
def frontendRoute : RouteEntry :=
  { prefixPath := "/", upstreamName := "frontend"
  , stripsPathOnForward := false, rewriteTo := none
  , protocolCapabilities := { http := true, websocket := false }
  , timeouts := defaultTimeouts, bufferProfile := defaultBuffers }

/-- Modelled from the spec: the configured gateway, with the route
prefixes, upstream names, redirect rules and health path asserted by the
repository's nginx unit tests and e2e tests. -/
def gatewayConfig : GatewayConfig :=
  { healthPath := "/health"
  , redirects :=
      [ { fromPathExact := "/grafana", toCanonicalPath := "/monitoring/grafana/" }
      , { fromPathExact := "/prometheus", toCanonicalPath := "/monitoring/prometheus/" }
      , { fromPathExact := "/keycloak", toCanonicalPath := "/auth/" }
      ]
  , routes :=
      [ grafanaRoute, prometheusRoute, tempoRoute, lokiRoute
      , keycloakRoute, pgadminRoute, frontendRoute ]
  }

/-! ## Gateway semantics -/

/-- Look up a header by name in an association list of headers. -/
def lookupHeader (hs : List (String × String)) (k : String) : Option String :=
  (hs.find? (fun h => h.1 == k)).map (fun h => h.2)

/-- Modelled from the spec: the appended-never-replaced original-for chain
header (spec.md section 4.3): if the client supplied a value it is kept and
the client address is appended; otherwise the chain starts at the client
address. -/
def addForwardedForChain (reqHeaders : List (String × String)) (clientAddr : String) : String :=
  match lookupHeader reqHeaders "X-Forwarded-For" with
  | some v => v ++ ", " ++ clientAddr
  | none => clientAddr

/-- Modelled from the spec: Redirect Policy lookup, consulted before Route
Table matching (spec.md section 4.4): an exact-path match against the
configured RedirectRule set. -/
def checkRedirect (cfg : GatewayConfig) (path : String) : Option String :=
  (cfg.redirects.find? (fun r => r.fromPathExact == path)).map
    (fun r => r.toCanonicalPath)

/-- Whether the string `p` is a prefix of the string `s`, computed on the
underlying character lists. -/
def isPathPrefix (p s : String) : Bool :=
  p.data.isPrefixOf s.data

/-- Drop the first `n` characters of a string, computed on the underlying
character list. -/
def dropChars (s : String) (n : Nat) : String :=
  String.mk (s.data.drop n)

/-- Pick the route with the longest prefix out of a list of candidates. -/
def pickLongest : List RouteEntry → Option RouteEntry
  | [] => none
  | r :: rest =>
    match pickLongest rest with
    | none => some r
    | some b => if b.prefixPath.length < r.prefixPath.length then some r else some b

/-- Modelled from the spec: Route Table matching (spec.md section 4.2):
the longest configured prefix that is a prefix of the request path wins. -/
def routeMatch (routes : List RouteEntry) (path : String) : Option RouteEntry :=
  pickLongest (routes.filter (fun r => isPathPrefix r.prefixPath path))

/-- Modelled from the spec: the path forwarded to the upstream (spec.md
section 4.2): when `stripsPathOnForward` is set, the matched prefix is
removed and the forwarded root (`/` unless `rewriteTo` overrides it) is
prepended; otherwise the request path is forwarded untouched. -/
def targetPath (r : RouteEntry) (path : String) : String :=
  if r.stripsPathOnForward then
    (match r.rewriteTo with
     | some root => root
     | none => "/") ++ dropChars path r.prefixPath.length
  else path

/-- How the Router talks to the upstream: an ordinary HTTP forward, or a
connection upgrade followed by byte relaying. -/
inductive ForwardMode where
  | ordinaryHttp : ForwardMode
  | upgrade : ForwardMode
  deriving DecidableEq

/-- The request the upstream receives after the Router's rewriting. -/
structure ForwardedRequest where
  upstreamName : String
  upstreamAddress : String
  fwdPath : String
  headers : List (String × String)
  mode : ForwardMode
  deriving DecidableEq

/-- Modelled from the spec: the Request Router's forwarding step (spec.md
section 4.3): deterministic forwarding headers, rewritten path, and the
upgrade decision (upgrade only when both the request asks for it and the
route's protocol capabilities allow it). -/
def forwardRequest (r : RouteEntry) (req : InFlightRequest) (addr : String) : ForwardedRequest :=
  { upstreamName := r.upstreamName
  , upstreamAddress := addr
  , fwdPath := targetPath r req.path
  , headers :=
      [ ("Host", req.host)
      , ("X-Real-IP", req.clientAddr)
      , ("X-Forwarded-For", addForwardedForChain req.headers req.clientAddr)
      , ("X-Forwarded-Proto", req.scheme)
      ]
  , mode :=
      if req.upgradeRequested && r.protocolCapabilities.websocket then
        ForwardMode.upgrade
      else
        ForwardMode.ordinaryHttp
  }

/-- The client-visible outcome of a request, by kind. -/
inductive GatewayResponse where
  | healthResp (status : Nat) (body : String) : GatewayResponse
  | redirect (status : Nat) (location : String) : GatewayResponse
  | forwarded (fr : ForwardedRequest) : GatewayResponse
  | errorResp (status : Nat) : GatewayResponse
  | notFound : GatewayResponse
  deriving DecidableEq

/-- A response together with the resolver lookups the gateway performed
while producing it. -/
structure GatewayOutcome where
  response : GatewayResponse
  resolverCalls : List String
  deriving DecidableEq

/-- Modelled from the spec: the gateway's control flow (spec.md section 2):
Health Endpoint exact-path short-circuit, then Redirect Policy, then the
trailing-slash canonicalization redirect (spec.md section 4.2 edge case),
then Route Table match, then resolution and forwarding. `resolveF` stands
for the Resolver as seen at request time: it maps a logical upstream name
to its currently resolved address, or `none` when the name has never been
resolved (in which case the Router answers 502 without contacting any
address, spec.md section 4.3). -/
def handle (cfg : GatewayConfig) (resolveF : String → Option String)
    (req : InFlightRequest) : GatewayOutcome :=
  if req.path = cfg.healthPath then
    { response := GatewayResponse.healthResp 200 "OK", resolverCalls := [] }
  else
    match checkRedirect cfg req.path with
    | some target => { response := GatewayResponse.redirect 301 target, resolverCalls := [] }
    | none =>
      if cfg.routes.any (fun r => r.prefixPath == req.path ++ "/") then
        { response := GatewayResponse.redirect 301 (req.path ++ "/"), resolverCalls := [] }
      else
        match routeMatch cfg.routes req.path with
        | none => { response := GatewayResponse.notFound, resolverCalls := [] }
        | some r =>
          match resolveF r.upstreamName with
          | none =>
            { response := GatewayResponse.errorResp 502, resolverCalls := [r.upstreamName] }
          | some addr =>
            { response := GatewayResponse.forwarded (forwardRequest r req addr)
            , resolverCalls := [r.upstreamName] }

/-- Whether a response was produced by the Health Endpoint. -/
def isHealthResponse : GatewayResponse → Bool
  | GatewayResponse.healthResp _ _ => true
  | _ => false

/-- Whether a response is an HTTP redirect. -/
def isRedirectResponse : GatewayResponse → Bool
  | GatewayResponse.redirect _ _ => true
  | _ => false

/-- Whether a response is a client-visible error. -/
def isErrorResponse : GatewayResponse → Bool
  | GatewayResponse.errorResp _ => true
  | _ => false

/-- Split a character list at every dot. -/
def dotSplit : List Char → List (List Char)
  | [] => [[]]
  | c :: rest =>
    if c = '.' then [] :: dotSplit rest
    else
      match dotSplit rest with
      | [] => [[c]]
      | h :: t => (c :: h) :: t

/-- Whether a string is a literal dotted-quad IPv4 address, the shape the
DNS-resolution unit test forbids in forwarding targets: four dot-separated
non-empty all-digit components. -/
def isIPv4Literal (s : String) : Bool :=
  let parts := dotSplit s.data
  parts.length == 4 && parts.all (fun p => decide (0 < p.length) && p.all Char.isDigit)

/-! ## Resolver

Modelled from the spec: the Resolver component (spec.md section 4.1) with
its per-name cached binding, TTL check, fresh lookup on miss/staleness and
stale-but-available fallback. The network lookup itself is a parameter
(`net`); the instrumented lookup count records how many network lookups
have been performed. -/

/-- Why a resolution call can fail outright. -/
inductive ResolutionError where
  | neverResolved : ResolutionError
  deriving DecidableEq

/-- Modelled from the spec: the per-upstream mutable binding (spec.md
section 3, UpstreamBinding). -/
structure UpstreamBinding where
  name : String
  resolvedAddress : Option String
  resolvedAt : Nat
  ttl : Nat
  deriving DecidableEq

/-- The Resolver's state: all bindings plus the instrumented count of
network lookups performed so far. -/
structure ResolverState where
  bindings : List UpstreamBinding
  lookupCount : Nat
  deriving DecidableEq

/-- Find the binding for a logical name, if one exists. -/
def findBinding (bs : List UpstreamBinding) (name : String) : Option UpstreamBinding :=
  bs.find? (fun b => b.name == name)

/-- Replace the binding for `b.name`, or add it when absent. -/
def setBinding : List UpstreamBinding → UpstreamBinding → List UpstreamBinding
  | [], b => [b]
  | c :: rest, b => if c.name == b.name then b :: rest else c :: setBinding rest b

/-- Modelled from the spec: a fresh network lookup (spec.md section 4.1):
increments the lookup count; on success updates the binding and returns
the new address; on failure returns the previous address when one exists
(stale-but-available) and only errors when the name was never resolved. -/
def freshLookup (net : String → Option String) (ttl now : Nat) (name : String)
    (st : ResolverState) (prev : Option String) :
    Except ResolutionError String × ResolverState :=
  let counted : ResolverState := { st with lookupCount := st.lookupCount + 1 }
  match net name with
  | some a =>
    (Except.ok a,
     { counted with
       bindings := setBinding counted.bindings
         { name := name, resolvedAddress := some a, resolvedAt := now, ttl := ttl } })
  | none =>
    match prev with
    | some a => (Except.ok a, counted)
    | none => (Except.error ResolutionError.neverResolved, counted)

/-- Modelled from the spec: `resolve(name)` (spec.md section 4.1): answer
from the cached binding when its age is within the TTL (no I/O), otherwise
perform a fresh lookup. `ttl` is the per-upstream configured TTL used when
creating or refreshing the binding. -/
def resolve (net : String → Option String) (ttl now : Nat) (name : String)
    (st : ResolverState) : Except ResolutionError String × ResolverState :=
  match findBinding st.bindings name with
  | some b =>
    match b.resolvedAddress with
    | some addr =>
      if now - b.resolvedAt ≤ b.ttl then (Except.ok addr, st)
      else freshLookup net ttl now name st (some addr)
    | none => freshLookup net ttl now name st none
  | none => freshLookup net ttl now name st none

/-! ## Upgraded-stream relay

Modelled from the spec: after a successful upgrade handshake the Router
switches to full-duplex byte relaying between the client and upstream
sockets until either side closes (spec.md section 4.3). The multiplexed
wire traffic is modelled as the sequence of events, in arrival order, each
tagged with the side it came from. -/

/-- Which peer of an upgraded stream an event came from. -/
inductive Side where
  | client : Side
  | upstream : Side
  deriving DecidableEq

/-- One event on an upgraded stream: a data byte or a close. -/
inductive RelayMsg where
  | dataByte (b : Nat) : RelayMsg
  | close : RelayMsg
  deriving DecidableEq

/-- The data event, if any, that relaying a message produces. -/
def relayDataEvent : Side × RelayMsg → Option (Side × Nat)
  | (s, RelayMsg.dataByte b) => some (s, b)
  | (_, RelayMsg.close) => none

/-- Modelled from the spec: the bidirectional relay loop (spec.md section
4.3): every data byte from either side is forwarded to the other side, and
relaying stops at the first close from either side. -/
def relay : List (Side × RelayMsg) → List (Side × Nat)
  | [] => []
  | (s, RelayMsg.dataByte b) :: rest => (s, b) :: relay rest
  | (_, RelayMsg.close) :: _ => []

/-! ## pgAdmin OAuth2 role mapping

Embedded from `src/docker/pgadmin/config_local.py`. A `user_data`
dictionary is modelled by the two keys the function reads: the optional
`realm_access` sub-dictionary (with its optional `roles` list) and the
optional `groups` list; a missing key is `none`, matching `dict.get` with
its default. -/

/-- The `realm_access` sub-dictionary of an OAuth2 token: its optional
`roles` list. -/
structure RealmAccess where
  roles : Option (List String)
  deriving DecidableEq

/-- The OAuth2 `user_data` dictionary, restricted to the keys
`OAUTH2_CLAIM_ADMIN_ROLE` reads. -/
structure UserData where
  realm_access : Option RealmAccess
  groups : Option (List String)
  deriving DecidableEq

/-- `OAUTH2_CLAIM_ADMIN_ROLE` from `src/docker/pgadmin/config_local.py`
lines 217-236: grant admin when the Keycloak roles contain `ROLE_DBA` or
the groups contain `/DBAs`, or the roles contain `ROLE_DEVOPS` or the
groups contain `/DevOps`; default to non-admin. -/
def OAUTH2_CLAIM_ADMIN_ROLE (user_data : UserData) : Bool :=
  let realm_access := user_data.realm_access.getD { roles := none }
  let roles := realm_access.roles.getD []
  let groups := user_data.groups.getD []
  if roles.contains "ROLE_DBA" || groups.contains "/DBAs" then
    true
  else if roles.contains "ROLE_DEVOPS" || groups.contains "/DevOps" then
    true
  else
    false

/-- The roles list `OAUTH2_CLAIM_ADMIN_ROLE` extracts from `user_data`
(missing keys treated as empty). -/
def userRoles (u : UserData) : List String :=
  (u.realm_access.getD { roles := none }).roles.getD []

/-- The groups list `OAUTH2_CLAIM_ADMIN_ROLE` extracts from `user_data`
(missing key treated as empty). -/
def userGroups (u : UserData) : List String :=
  u.groups.getD []

/-! ## Concrete requests used in scenario theorems and witnesses -/

/-- The Scenario B request: `GET /monitoring/grafana/api/health`. -/
def grafanaApiRequest : InFlightRequest :=
  { method := "GET", path := "/monitoring/grafana/api/health", headers := []
  , upgradeRequested := false, clientAddr := "203.0.113.7", scheme := "http"
  , host := "localhost" }

/-- The Scenario A request: `GET /pgadmin` without the trailing slash. -/
def pgadminNoSlashRequest : InFlightRequest :=
  { method := "GET", path := "/pgadmin", headers := [], upgradeRequested := false
  , clientAddr := "203.0.113.7", scheme := "http", host := "localhost" }

/-- A request that already carries a client-supplied forwarded-for header,
used to exercise the append-never-replace rule. -/
def spoofedRequest : InFlightRequest :=
  { method := "GET", path := "/pgadmin/", headers := [("X-Forwarded-For", "198.51.100.4")]
  , upgradeRequested := false, clientAddr := "203.0.113.7", scheme := "http"
  , host := "localhost" }

/-- The request `spoofedRequest` as the pgAdmin upstream receives it. -/
def spoofedForwarded : ForwardedRequest :=
  { upstreamName := "pgadmin", upstreamAddress := "10.89.0.3", fwdPath := "/"
  , headers :=
      [ ("Host", "localhost"), ("X-Real-IP", "203.0.113.7")
      , ("X-Forwarded-For", "198.51.100.4, 203.0.113.7"), ("X-Forwarded-Proto", "http") ]
  , mode := ForwardMode.ordinaryHttp }

/-- A request for the Keycloak master realm through the gateway. -/
def keycloakRealmsRequest : InFlightRequest :=
  { method := "GET", path := "/auth/realms/master", headers := []
  , upgradeRequested := false, clientAddr := "203.0.113.7", scheme := "http"
  , host := "localhost" }

/-- The request `keycloakRealmsRequest` as the Keycloak upstream receives
it. -/
def keycloakForwarded : ForwardedRequest :=
  { upstreamName := "keycloak", upstreamAddress := "10.89.0.7"
  , fwdPath := "/auth/realms/master"
  , headers :=
      [ ("Host", "localhost"), ("X-Real-IP", "203.0.113.7")
      , ("X-Forwarded-For", "203.0.113.7"), ("X-Forwarded-Proto", "http") ]
  , mode := ForwardMode.ordinaryHttp }

/-! ## Helper lemmas -/

/-- A route produced by `pickLongest` is one of the candidates. -/
theorem pickLongest_mem {l : List RouteEntry} {r : RouteEntry}
    (h : pickLongest l = some r) : r ∈ l := by
  induction l with
  | nil => simp [pickLongest] at h
  | cons a t ih =>
    unfold pickLongest at h
    cases hp : pickLongest t with
    | none =>
      rw [hp] at h
      injection h with h
      exact h ▸ List.mem_cons_self a t
    | some b =>
      rw [hp] at h
      have h' : (if b.prefixPath.length < a.prefixPath.length then some a else some b) =
          some r := h
      split at h'
      · injection h' with h'
        exact h' ▸ List.mem_cons_self a t
      · injection h' with h'
        exact List.mem_cons_of_mem a (ih (h' ▸ hp))

/-- A matched route is one of the configured routes. -/
theorem routeMatch_mem {routes : List RouteEntry} {path : String} {r : RouteEntry}
    (h : routeMatch routes path = some r) : r ∈ routes :=
  (List.mem_filter.mp (pickLongest_mem h)).1

/-- Inversion of `handle`: a forwarded response can only arise from a
matched route whose upstream name the resolver resolved at request time,
and the forwarded request is exactly `forwardRequest` of that route. -/
theorem handle_forwarded_inv {cfg : GatewayConfig} {resolveF : String → Option String}
    {req : InFlightRequest} {fr : ForwardedRequest}
    (h : (handle cfg resolveF req).response = GatewayResponse.forwarded fr) :
    ∃ r addr, routeMatch cfg.routes req.path = some r ∧
      resolveF r.upstreamName = some addr ∧
      fr = forwardRequest r req addr ∧
      (handle cfg resolveF req).resolverCalls = [r.upstreamName] := by
  unfold handle at h ⊢
  split at h
  · simp at h
  · next hph =>
    split at h
    · simp at h
    · next hcr =>
      split at h
      · simp at h
      · next hany =>
        split at h
        · simp at h
        · next r hroute =>
          split at h
          · simp at h
          · next addr hres =>
            simp at h
            refine ⟨r, addr, hroute, hres, h.symm, ?_⟩
            rw [if_neg hph, if_neg hany]

/-- After `setBinding` the binding for the written name is the one just
written. -/
theorem findBinding_setBinding (bs : List UpstreamBinding) (b : UpstreamBinding) :
    findBinding (setBinding bs b) b.name = some b := by
  induction bs with
  | nil => simp [setBinding, findBinding, List.find?]
  | cons c t ih =>
    unfold setBinding
    split
    · simp [findBinding, List.find?]
    · next hc =>
      unfold findBinding at ih ⊢
      rw [List.find?_cons_of_neg _ (by simpa using fun he => hc (by simp [he]))]
      exact ih

/-- The relay forwards every data byte that precedes the first close from
either side, and nothing that follows it. -/
theorem relay_stops_at_first_close (pre post : List (Side × RelayMsg)) (s : Side)
    (hpre : ∀ x ∈ pre, x.2 ≠ RelayMsg.close) :
    relay (pre ++ (s, RelayMsg.close) :: post) = pre.filterMap relayDataEvent := by
  induction pre with
  | nil => simp [relay]
  | cons x t ih =>
    obtain ⟨sx, mx⟩ := x
    cases mx with
    | dataByte b =>
      have ht := ih (fun y hy => hpre y (List.mem_cons_of_mem _ hy))
      show (sx, b) :: relay (t ++ (s, RelayMsg.close) :: post) =
        (sx, b) :: List.filterMap relayDataEvent t
      rw [ht]
    | close =>
      exact absurd rfl (hpre (sx, RelayMsg.close) (List.mem_cons_self _ _))

/-! ## Claim theorems -/

/-- C1: every configured legacy-path RedirectRule redirects its source path
to its canonical target in one hop; the target is not itself redirected,
is matched by a RouteEntry (so the chain terminates within at most 2
hops), and differs from the source (no path is visited twice). -/
theorem redirect_rules_loop_free (rule : RedirectRule)
    (h : rule ∈ gatewayConfig.redirects) :
    checkRedirect gatewayConfig rule.fromPathExact = some rule.toCanonicalPath ∧
    checkRedirect gatewayConfig rule.toCanonicalPath = none ∧
    (routeMatch gatewayConfig.routes rule.toCanonicalPath).isSome = true ∧
    rule.toCanonicalPath ≠ rule.fromPathExact := by
  fin_cases h <;> decide

/-- Witness for C1 at the `/grafana` rule. -/
theorem redirect_rules_loop_free_witness :
    ({ fromPathExact := "/grafana", toCanonicalPath := "/monitoring/grafana/" } : RedirectRule) ∈
        gatewayConfig.redirects ∧
    checkRedirect gatewayConfig "/grafana" = some "/monitoring/grafana/" ∧
    checkRedirect gatewayConfig "/monitoring/grafana/" = none ∧
    (routeMatch gatewayConfig.routes "/monitoring/grafana/").isSome = true ∧
    ("/monitoring/grafana/" : String) ≠ "/grafana" := by
  refine ⟨by decide, ?_⟩
  exact redirect_rules_loop_free
    { fromPathExact := "/grafana", toCanonicalPath := "/monitoring/grafana/" } (by decide)

/-- C2: every request on the health path gets the fixed 200 success
response with no resolver call, for every possible resolver behaviour —
in particular when every configured upstream is unreachable
(`resolveF = fun _ => none`). -/
theorem health_endpoint_zero_dependency (resolveF : String → Option String)
    (req : InFlightRequest) (h : req.path = "/health") :
    handle gatewayConfig resolveF req =
      { response := GatewayResponse.healthResp 200 "OK", resolverCalls := [] } := by
  have hp : req.path = gatewayConfig.healthPath := h
  simp [handle, hp]

/-- Witness for C2 with every upstream unreachable. -/
theorem health_endpoint_zero_dependency_witness :
    handle gatewayConfig (fun _ => none)
        { method := "GET", path := "/health", headers := [], upgradeRequested := false
        , clientAddr := "10.1.1.1", scheme := "http", host := "localhost" } =
      { response := GatewayResponse.healthResp 200 "OK", resolverCalls := [] } :=
  health_endpoint_zero_dependency (fun _ => none) _ rfl

/-- C3: a request is handled by the Health Endpoint exactly when its path
equals the health path — the match is exact and happens before the
Redirect Policy and Route Table, so a path that merely extends `/health`
(such as `/health/x`) is never answered by the Health Endpoint. -/
theorem health_path_exact_match_precedence (resolveF : String → Option String)
    (req : InFlightRequest) :
    isHealthResponse (handle gatewayConfig resolveF req).response = true ↔
      req.path = "/health" := by
  unfold handle
  split
  · next hp => exact iff_of_true rfl hp
  · next hp =>
    apply iff_of_false _ hp
    split
    · simp [isHealthResponse]
    · split
      · simp [isHealthResponse]
      · split
        · simp [isHealthResponse]
        · split <;> simp [isHealthResponse]

/-- C4: a request whose path is a configured RouteEntry prefix without its
trailing slash is answered with a 301 redirect (a member of
{301, 302, 307, 308}) to the canonicalized path ending in `/`, with no
resolver call — never a 404 and never a direct route match. -/
theorem trailing_slash_canonical_redirect (resolveF : String → Option String)
    (req : InFlightRequest)
    (h : gatewayConfig.routes.any (fun r => r.prefixPath == req.path ++ "/") = true) :
    handle gatewayConfig resolveF req =
      { response := GatewayResponse.redirect 301 (req.path ++ "/"), resolverCalls := [] } ∧
    301 ∈ [301, 302, 307, 308] := by
  refine ⟨?_, by decide⟩
  have hph : ¬(req.path = gatewayConfig.healthPath) := by
    intro he
    rw [he] at h
    exact absurd h (by decide)
  have hc : checkRedirect gatewayConfig req.path = none := by
    cases hc : checkRedirect gatewayConfig req.path with
    | none => rfl
    | some t =>
      exfalso
      unfold checkRedirect at hc
      rcases Option.map_eq_some'.mp hc with ⟨rule, hfind, -⟩
      have hmem := List.mem_of_find?_eq_some hfind
      have hbeq := List.find?_some hfind
      have hpath : rule.fromPathExact = req.path := by simpa using hbeq
      fin_cases hmem <;> (rw [← hpath] at h; exact absurd h (by decide))
  simp only [handle]
  rw [if_neg hph]
  rw [hc]
  simp only [h, if_true]

/-- Witness for C4 at Scenario A's `/pgadmin` request. -/
theorem trailing_slash_canonical_redirect_witness :
    gatewayConfig.routes.any
        (fun r => r.prefixPath == pgadminNoSlashRequest.path ++ "/") = true ∧
    (handle gatewayConfig (fun _ => none) pgadminNoSlashRequest =
       { response := GatewayResponse.redirect 301 (pgadminNoSlashRequest.path ++ "/")
       , resolverCalls := [] } ∧
     301 ∈ [301, 302, 307, 308]) :=
  ⟨by decide, trailing_slash_canonical_redirect (fun _ => none) pgadminNoSlashRequest (by decide)⟩

/-- C5: on a route with the strip flag set and no rewrite override, the
path forwarded upstream is the request path with the matched prefix
removed (rooted at `/`); in particular Scenario B's request to
`/monitoring/grafana/api/health` is forwarded to the `grafana` upstream
as `/api/health`. -/
theorem strip_matched_path_forwarding (resolveF : String → Option String) (addr : String)
    (r : RouteEntry) (path : String)
    (hstrip : r.stripsPathOnForward = true) (hrw : r.rewriteTo = none)
    (hres : resolveF "grafana" = some addr) :
    targetPath r path = "/" ++ dropChars path r.prefixPath.length ∧
    handle gatewayConfig resolveF grafanaApiRequest =
      { response := GatewayResponse.forwarded
          { upstreamName := "grafana", upstreamAddress := addr
          , fwdPath := "/api/health"
          , headers :=
              [ ("Host", "localhost"), ("X-Real-IP", "203.0.113.7")
              , ("X-Forwarded-For", "203.0.113.7"), ("X-Forwarded-Proto", "http") ]
          , mode := ForwardMode.ordinaryHttp }
      , resolverCalls := ["grafana"] } := by
  constructor
  · simp [targetPath, hstrip, hrw]
  · have h0 : ¬(("/monitoring/grafana/api/health" : String) = gatewayConfig.healthPath) := by
      decide
    have h1 : checkRedirect gatewayConfig "/monitoring/grafana/api/health" = none := by decide
    have h2 : ¬∃ x ∈ gatewayConfig.routes,
        x.prefixPath = "/monitoring/grafana/api/health/" := by decide
    have h3 : routeMatch gatewayConfig.routes "/monitoring/grafana/api/health" =
        some grafanaRoute := by decide
    simp [handle, grafanaApiRequest, h0, h1, h2, h3, hres, forwardRequest, targetPath,
      addForwardedForChain, lookupHeader, grafanaRoute, dropChars]
    decide

/-- Witness for C5 at Scenario B with a concrete resolver. -/
theorem strip_matched_path_forwarding_witness :
    grafanaRoute.stripsPathOnForward = true ∧
    grafanaRoute.rewriteTo = none ∧
    (fun _ : String => some "10.89.0.4") "grafana" = some "10.89.0.4" ∧
    (targetPath grafanaRoute "/monitoring/grafana/api/health" =
       "/" ++ dropChars "/monitoring/grafana/api/health" grafanaRoute.prefixPath.length ∧
     handle gatewayConfig (fun _ => some "10.89.0.4") grafanaApiRequest =
       { response := GatewayResponse.forwarded
           { upstreamName := "grafana", upstreamAddress := "10.89.0.4"
           , fwdPath := "/api/health"
           , headers :=
               [ ("Host", "localhost"), ("X-Real-IP", "203.0.113.7")
               , ("X-Forwarded-For", "203.0.113.7"), ("X-Forwarded-Proto", "http") ]
           , mode := ForwardMode.ordinaryHttp }
       , resolverCalls := ["grafana"] }) :=
  ⟨rfl, rfl, rfl,
   strip_matched_path_forwarding (fun _ => some "10.89.0.4") "10.89.0.4" grafanaRoute
     "/monitoring/grafana/api/health" rfl rfl rfl⟩

/-- C6: every request the Router forwards carries the Host header, the
X-Real-IP client address, the X-Forwarded-Proto original scheme, and an
X-Forwarded-For chain built by appending the client address to any
client-supplied value (never replacing it). -/
theorem forwarding_headers_invariant (resolveF : String → Option String)
    (req : InFlightRequest) (fr : ForwardedRequest)
    (h : (handle gatewayConfig resolveF req).response = GatewayResponse.forwarded fr) :
    lookupHeader fr.headers "Host" = some req.host ∧
    lookupHeader fr.headers "X-Real-IP" = some req.clientAddr ∧
    lookupHeader fr.headers "X-Forwarded-Proto" = some req.scheme ∧
    (∀ v, lookupHeader req.headers "X-Forwarded-For" = some v →
      lookupHeader fr.headers "X-Forwarded-For" = some (v ++ ", " ++ req.clientAddr)) ∧
    (lookupHeader req.headers "X-Forwarded-For" = none →
      lookupHeader fr.headers "X-Forwarded-For" = some req.clientAddr) := by
  obtain ⟨r, addr, -, -, rfl, -⟩ := handle_forwarded_inv h
  refine ⟨rfl, rfl, rfl, ?_, ?_⟩
  · intro v hv
    show some (addForwardedForChain req.headers req.clientAddr) = _
    unfold addForwardedForChain
    rw [hv]
  · intro hv
    show some (addForwardedForChain req.headers req.clientAddr) = _
    unfold addForwardedForChain
    rw [hv]

/-- Witness for C6 at a request that already carries a client-supplied
X-Forwarded-For value: the value is appended to, not replaced. -/
theorem forwarding_headers_invariant_witness :
    (handle gatewayConfig (fun _ => some "10.89.0.3") spoofedRequest).response =
      GatewayResponse.forwarded spoofedForwarded ∧
    lookupHeader spoofedForwarded.headers "Host" = some "localhost" ∧
    lookupHeader spoofedForwarded.headers "X-Real-IP" = some "203.0.113.7" ∧
    lookupHeader spoofedForwarded.headers "X-Forwarded-Proto" = some "http" ∧
    lookupHeader spoofedForwarded.headers "X-Forwarded-For" =
      some "198.51.100.4, 203.0.113.7" := by
  have hmain := forwarding_headers_invariant (fun _ => some "10.89.0.3")
    spoofedRequest spoofedForwarded (by decide)
  exact ⟨by decide, hmain.1, hmain.2.1, hmain.2.2.1, hmain.2.2.2.1 "198.51.100.4" rfl⟩

/-- C7: every forwarded request goes to an upstream addressed by its
logical service name resolved at request time (the resolver is called
exactly once, on that name, and its answer is the address used), the name
is one of the configured upstream names, and no configured forwarding
target is a literal IPv4 address. -/
theorem runtime_name_resolution (resolveF : String → Option String)
    (req : InFlightRequest) (fr : ForwardedRequest)
    (h : (handle gatewayConfig resolveF req).response = GatewayResponse.forwarded fr) :
    resolveF fr.upstreamName = some fr.upstreamAddress ∧
    (handle gatewayConfig resolveF req).resolverCalls = [fr.upstreamName] ∧
    fr.upstreamName ∈ gatewayConfig.routes.map RouteEntry.upstreamName ∧
    isIPv4Literal fr.upstreamName = false ∧
    ∀ r ∈ gatewayConfig.routes, isIPv4Literal r.upstreamName = false := by
  obtain ⟨r, addr, hroute, hres, rfl, hcalls⟩ := handle_forwarded_inv h
  have hmem := routeMatch_mem hroute
  have hnames : ∀ r ∈ gatewayConfig.routes, isIPv4Literal r.upstreamName = false := by decide
  exact ⟨hres, hcalls, List.mem_map_of_mem RouteEntry.upstreamName hmem,
    hnames r hmem, hnames⟩

/-- Witness for C7 at the Keycloak realms request. -/
theorem runtime_name_resolution_witness :
    (handle gatewayConfig (fun _ => some "10.89.0.7") keycloakRealmsRequest).response =
      GatewayResponse.forwarded keycloakForwarded ∧
    (fun _ : String => some "10.89.0.7") keycloakForwarded.upstreamName =
      some keycloakForwarded.upstreamAddress ∧
    (handle gatewayConfig (fun _ => some "10.89.0.7") keycloakRealmsRequest).resolverCalls =
      ["keycloak"] ∧
    isIPv4Literal "keycloak" = false := by
  have hmain := runtime_name_resolution (fun _ => some "10.89.0.7")
    keycloakRealmsRequest keycloakForwarded (by decide)
  exact ⟨by decide, hmain.1, hmain.2.1, hmain.2.2.2.1⟩

/-- C8: resolving a name for the first time performs one network lookup,
and resolving it again within the TTL window answers from the cached
binding with the same address, performing no further lookup and leaving
the resolver state untouched. -/
theorem resolve_cached_within_ttl (net : String → Option String) (name addr : String)
    (ttl t0 t1 : Nat) (st0 : ResolverState)
    (hmiss : findBinding st0.bindings name = none)
    (hnet : net name = some addr)
    (hwin : t1 - t0 ≤ ttl) :
    (resolve net ttl t0 name st0).2.lookupCount = st0.lookupCount + 1 ∧
    (resolve net ttl t0 name st0).1 = Except.ok addr ∧
    resolve net ttl t1 name (resolve net ttl t0 name st0).2 =
      (Except.ok addr, (resolve net ttl t0 name st0).2) := by
  have h1 : resolve net ttl t0 name st0 =
      (Except.ok addr,
       { bindings := setBinding st0.bindings
           { name := name, resolvedAddress := some addr, resolvedAt := t0, ttl := ttl }
       , lookupCount := st0.lookupCount + 1 }) := by
    unfold resolve
    rw [hmiss]
    unfold freshLookup
    rw [hnet]
  refine ⟨by rw [h1], by rw [h1], ?_⟩
  rw [h1]
  have h2 : findBinding
      (setBinding st0.bindings
        { name := name, resolvedAddress := some addr, resolvedAt := t0, ttl := ttl }) name =
      some { name := name, resolvedAddress := some addr, resolvedAt := t0, ttl := ttl } :=
    findBinding_setBinding st0.bindings _
  unfold resolve
  rw [h2]
  simp [hwin]

/-- Witness for C8: first resolution of `grafana` at time 2, second at
time 5 with TTL 30. -/
theorem resolve_cached_within_ttl_witness :
    findBinding (ResolverState.mk [] 0).bindings "grafana" = none ∧
    (fun _ : String => some "10.89.0.4") "grafana" = some "10.89.0.4" ∧
    (5 : Nat) - 2 ≤ 30 ∧
    ((resolve (fun _ => some "10.89.0.4") 30 2 "grafana" (ResolverState.mk [] 0)).2.lookupCount =
        0 + 1 ∧
     (resolve (fun _ => some "10.89.0.4") 30 2 "grafana" (ResolverState.mk [] 0)).1 =
        Except.ok "10.89.0.4" ∧
     resolve (fun _ => some "10.89.0.4") 30 5 "grafana"
         (resolve (fun _ => some "10.89.0.4") 30 2 "grafana" (ResolverState.mk [] 0)).2 =
       (Except.ok "10.89.0.4",
        (resolve (fun _ => some "10.89.0.4") 30 2 "grafana" (ResolverState.mk [] 0)).2)) :=
  ⟨rfl, rfl, by decide,
   resolve_cached_within_ttl (fun _ => some "10.89.0.4") "grafana" "10.89.0.4" 30 2 5
     (ResolverState.mk [] 0) rfl rfl (by decide)⟩

/-- C9: an upgrade-requesting request on a websocket-capable route is
forwarded in upgrade mode on the same target path as an ordinary forward;
on a route without websocket support it is forwarded as ordinary HTTP and
no error arises from the downgrade; and the upgraded relay forwards every
byte from either side up to the first close from either side, and nothing
after it. -/
theorem upgrade_request_handling (r : RouteEntry) (req : InFlightRequest) (addr : String)
    (pre post : List (Side × RelayMsg)) (s : Side)
    (hupg : req.upgradeRequested = true)
    (hpre : ∀ x ∈ pre, x.2 ≠ RelayMsg.close) :
    (r.protocolCapabilities.websocket = true →
      (forwardRequest r req addr).mode = ForwardMode.upgrade ∧
      (forwardRequest r req addr).fwdPath = targetPath r req.path) ∧
    (r.protocolCapabilities.websocket = false →
      (forwardRequest r req addr).mode = ForwardMode.ordinaryHttp ∧
      isErrorResponse (GatewayResponse.forwarded (forwardRequest r req addr)) = false) ∧
    relay (pre ++ (s, RelayMsg.close) :: post) = pre.filterMap relayDataEvent := by
  refine ⟨?_, ?_, relay_stops_at_first_close pre post s hpre⟩
  · intro hws
    exact ⟨by simp [forwardRequest, hupg, hws], rfl⟩
  · intro hws
    exact ⟨by simp [forwardRequest, hupg, hws], rfl⟩

/-- Witness for C9: a Grafana live-websocket upgrade, a pgAdmin downgrade,
and a concrete relay transcript ending at the upstream's close. -/
theorem upgrade_request_handling_witness :
    (forwardRequest grafanaRoute
        { method := "GET", path := "/monitoring/grafana/api/live/ws", headers := []
        , upgradeRequested := true, clientAddr := "203.0.113.7", scheme := "http"
        , host := "localhost" } "10.89.0.4").mode = ForwardMode.upgrade ∧
    (forwardRequest grafanaRoute
        { method := "GET", path := "/monitoring/grafana/api/live/ws", headers := []
        , upgradeRequested := true, clientAddr := "203.0.113.7", scheme := "http"
        , host := "localhost" } "10.89.0.4").fwdPath = "/api/live/ws" ∧
    (forwardRequest pgadminRoute
        { method := "GET", path := "/pgadmin/ws", headers := []
        , upgradeRequested := true, clientAddr := "203.0.113.7", scheme := "http"
        , host := "localhost" } "10.89.0.3").mode = ForwardMode.ordinaryHttp ∧
    relay ([(Side.client, RelayMsg.dataByte 7), (Side.upstream, RelayMsg.dataByte 9)] ++
        (Side.upstream, RelayMsg.close) :: [(Side.client, RelayMsg.dataByte 1)]) =
      List.filterMap relayDataEvent
        [(Side.client, RelayMsg.dataByte 7), (Side.upstream, RelayMsg.dataByte 9)] ∧
    List.filterMap relayDataEvent
        [(Side.client, RelayMsg.dataByte 7), (Side.upstream, RelayMsg.dataByte 9)] =
      [(Side.client, 7), (Side.upstream, 9)] := by
  have h1 := upgrade_request_handling grafanaRoute
    { method := "GET", path := "/monitoring/grafana/api/live/ws", headers := []
    , upgradeRequested := true, clientAddr := "203.0.113.7", scheme := "http"
    , host := "localhost" } "10.89.0.4"
    [(Side.client, RelayMsg.dataByte 7), (Side.upstream, RelayMsg.dataByte 9)]
    [(Side.client, RelayMsg.dataByte 1)] Side.upstream rfl (by decide)
  have h2 := upgrade_request_handling pgadminRoute
    { method := "GET", path := "/pgadmin/ws", headers := []
    , upgradeRequested := true, clientAddr := "203.0.113.7", scheme := "http"
    , host := "localhost" } "10.89.0.3" [] [] Side.client rfl (by decide)
  refine ⟨(h1.1 rfl).1, ?_, (h2.2.1 rfl).1, h1.2.2, by decide⟩
  rw [(h1.1 rfl).2]
  decide

/-- C10: pgAdmin's OAuth2 admin-role mapping grants admin exactly when the
token's realm roles contain ROLE_DBA or ROLE_DEVOPS or its groups contain
/DBAs or /DevOps (missing keys treated as empty), and an empty user_data
dictionary yields non-admin. -/
theorem oauth2_admin_role_iff_dba_or_devops :
    (∀ u : UserData, OAUTH2_CLAIM_ADMIN_ROLE u = true ↔
      ("ROLE_DBA" ∈ userRoles u ∨ "ROLE_DEVOPS" ∈ userRoles u ∨
       "/DBAs" ∈ userGroups u ∨ "/DevOps" ∈ userGroups u)) ∧
    OAUTH2_CLAIM_ADMIN_ROLE { realm_access := none, groups := none } = false := by
  constructor
  · intro u
    unfold OAUTH2_CLAIM_ADMIN_ROLE
    simp only []
    split_ifs with h1 h2 <;> (simp_all [userRoles, userGroups]; try tauto)
  · rfl

end AIInfra
